import Mathlib

/-!
Verification development for UnraWheel.js (src/unrawheel.js), a custom wheel
select web component.  The JavaScript class `UnraWheel` is shallowly embedded:

* JS runtime values carried in section data are modelled by `JsValue`;
* the private instance fields that make up the interaction state are the
  fields of `WheelState` (angles stored as exact rationals: `angleStep` and
  `angleOffset` hold the coefficient of pi of the stored float, the pointer
  rotation is held in degrees as a rational);
* methods that can throw are modelled as functions returning the resulting
  state together with an `Option JsError` (a JS throw does not roll back the
  mutations already performed, so every function returns the state as it is
  at the moment of the throw);
* the browser-side delivery conditions for pointer/keyboard events (CSS
  `pointer-events: none` on the `unrawheel--locked` class, `tabindex`) are
  modelled explicitly in the `deliver*` wrappers.
-/

namespace UnraWheel

/-- A JavaScript runtime value as it can appear in the caller-supplied
section data (`value`, `text`, `image`, `key` properties). -/
inductive JsValue
  | vstr (s : String)
  | vnum (n : Int)
  | vbool (b : Bool)
  | vnull
  deriving DecidableEq, Repr

/-- A JavaScript exception.  The source only ever throws `TypeError`. -/
inductive JsError
  | typeError (msg : String)
  deriving DecidableEq, Repr

/-- The callback of the `reduce` call in `#onSectionHover` (src/unrawheel.js
lines 359-361): `(dist, prev, index) => index === 0 ? dist :
Math.abs(dist) < Math.abs(prev) ? dist : prev`.  `dist` is the accumulator,
`prev` the current array element, `index` the current position. -/
def reduceStep (dist prev : Int) (index : Nat) : Int :=
  if index = 0 then dist
  else if dist.natAbs < prev.natAbs then dist else prev

/-- The signed step count chosen by `#onSectionHover` (src/unrawheel.js lines
354-361).  `Array.prototype.reduce` without an initial value on the
three-element array `[distThroughZero, distThroughZeroReverse, distDirect]`
starts with the first element as accumulator and invokes the callback at
positions 1 and 2, which is unrolled literally here. -/
def hoverDistance (sectionCount prevHoverIndex index : Int) : Int :=
  reduceStep
    (reduceStep (sectionCount - prevHoverIndex + index)
      (-(sectionCount + prevHoverIndex - index)) 1)
    (index - prevHoverIndex) 2

/-- C1: for every sectionCount `n ≥ 2` and accepted hover indices
`prev ≠ idx` in `[0, n)`, the chosen signed step count is one of the three
candidates (direct, forward-wrap, backward-wrap), its absolute value is
minimal among the three, and its magnitude never exceeds `n/2` rounded
(half-up, i.e. `(n + 1) / 2` in integer division). -/
theorem hoverDistance_shortest_path (n prev idx : Int)
    (hn : 2 ≤ n) (hp0 : 0 ≤ prev) (hpn : prev < n)
    (hi0 : 0 ≤ idx) (hin : idx < n) (hne : prev ≠ idx) :
    (hoverDistance n prev idx = n - prev + idx ∨
     hoverDistance n prev idx = -(n + prev - idx) ∨
     hoverDistance n prev idx = idx - prev) ∧
    (hoverDistance n prev idx).natAbs ≤ (n - prev + idx).natAbs ∧
    (hoverDistance n prev idx).natAbs ≤ (-(n + prev - idx)).natAbs ∧
    (hoverDistance n prev idx).natAbs ≤ (idx - prev).natAbs ∧
    ((hoverDistance n prev idx).natAbs : Int) ≤ (n + 1) / 2 := by
  unfold hoverDistance reduceStep
  simp only [Nat.one_ne_zero, if_false, if_neg (by decide : ¬ (2 : Nat) = 0)]
  by_cases h1 : (n - prev + idx).natAbs < (-(n + prev - idx)).natAbs <;>
    simp only [h1, if_true, if_false, ite_true, ite_false] <;>
  · split_ifs with h2
    all_goals refine ⟨?_, ?_, ?_, ?_, ?_⟩ <;> omega

/-- Witness for C1 at the spec example: `sectionCount = 6`, hovering from
index 0 to index 4 yields signed steps `-2` (backward wrap), not `+4`, and
its magnitude is within the rounded half-count bound. -/
theorem hoverDistance_shortest_path_witness :
    hoverDistance 6 0 4 = -2 ∧ ((hoverDistance 6 0 4).natAbs : Int) ≤ (6 + 1) / 2 := by
  refine ⟨by decide, ?_⟩
  exact (hoverDistance_shortest_path 6 0 4 (by norm_num) (by norm_num)
    (by norm_num) (by norm_num) (by norm_num) (by decide)).2.2.2.2

/-- Counterexample to C2: with `sectionCount = 4`, `prevIndex = 0`,
`newIndex = 2` the candidates are forward-wrap `6`, backward-wrap `-2`,
direct `+2`; the reduce resolves the `|-2| = |2|` tie to the direct value
`+2`, not to the backward-wrap `-2` the claim predicts. -/
theorem hoverDistance_tie_counterexample :
    hoverDistance 4 0 2 = 2 ∧ hoverDistance 4 0 2 ≠ -2 := by decide

/-- C2 (amended): ties in absolute value are resolved to the LAST minimal
candidate in the evaluation order [forward-wrap, backward-wrap, direct]
(the reduce keeps the accumulator only when strictly smaller in magnitude
than the current element); equivalently, the direct candidate is chosen
whenever its magnitude is less than or equal to both wrap candidates, the
backward wrap is chosen when it is at most the forward wrap and strictly
smaller than the direct candidate, and the forward wrap only when strictly
smaller than both.  In particular with sectionCount 4, prev 0, new 2 the
result is the direct value `+2`, not the backward-wrap `-2`. -/
theorem hoverDistance_tie_last_minimal (n prev idx : Int) :
    ((idx - prev).natAbs ≤ (n - prev + idx).natAbs →
      (idx - prev).natAbs ≤ (-(n + prev - idx)).natAbs →
      hoverDistance n prev idx = idx - prev) ∧
    ((-(n + prev - idx)).natAbs ≤ (n - prev + idx).natAbs →
      (-(n + prev - idx)).natAbs < (idx - prev).natAbs →
      hoverDistance n prev idx = -(n + prev - idx)) ∧
    ((n - prev + idx).natAbs < (-(n + prev - idx)).natAbs →
      (n - prev + idx).natAbs < (idx - prev).natAbs →
      hoverDistance n prev idx = n - prev + idx) := by
  unfold hoverDistance reduceStep
  simp only [Nat.one_ne_zero, if_false, if_neg (by decide : ¬ (2 : Nat) = 0)]
  by_cases h1 : (n - prev + idx).natAbs < (-(n + prev - idx)).natAbs <;>
    simp only [h1, if_true, if_false, ite_true, ite_false] <;>
  · split_ifs with h2
    all_goals refine ⟨?_, ?_, ?_⟩ <;> intros <;> omega

/-- Witness for the amended C2: at sectionCount 4, prev 0, new 2 — a tie
between backward-wrap `-2` and direct `+2` — the theorem yields the direct
candidate `+2`. -/
theorem hoverDistance_tie_last_minimal_witness : hoverDistance 4 0 2 = 2 := by
  have h := (hoverDistance_tie_last_minimal 4 0 2).1 (by decide) (by decide)
  simpa using h

/-- A caller-supplied raw section entry.  `none` means the property is
absent (`Object.hasOwn` is false); `some v` holds the property value.  A
non-object array element behaves as the empty record: the source first
copies the element with `Object.assign({}, item)` (line 248), which wraps a
primitive into an object with no own enumerable properties, so the
subsequent `typeof item !== 'object'` check (line 250) can never fire. -/
structure RawItem where
  valueP : Option JsValue := none
  textP : Option JsValue := none
  imageP : Option JsValue := none
  keyP : Option JsValue := none
  deriving DecidableEq, Repr

/-- A normalized section entry as stored in the private `#data` field.
`key` is `none` when the entry had no `key` property and the positional
default table was exhausted (`#defaultKeys[i]` is `undefined` for
`i ≥ 36`). -/
structure Item where
  value : JsValue
  text : String
  image : Option String
  key : Option String
  deriving DecidableEq, Repr

/-- The private `#defaultKeys` table (src/unrawheel.js lines 125-130). -/
def defaultKeysTable : List String :=
  ["a", "s", "d", "f", "g", "h", "j", "k", "l",
   "q", "w", "e", "r", "t", "y", "u", "i", "o", "p",
   "z", "x", "c", "v", "b", "n", "m",
   "1", "2", "3", "4", "5", "6", "7", "8", "9", "0"]

/-- The image check in the map callback (lines 259-261): an `image`
property that is present but not a string throws. -/
def checkImageProp (i : Nat) (p : Option JsValue) : Except JsError (Option String) :=
  match p with
  | none => .ok none
  | some (.vstr s) => .ok (some s)
  | some _ =>
      .error (.typeError ("image in item at index " ++ toString i ++ " must be a string"))

/-- The key resolution in the map callback (lines 263-264): an absent `key`
defaults to `#defaultKeys[i]` (which is `undefined`, i.e. `none`, for
`i ≥ 36`); a present `key` must be a string of length exactly 1. -/
def resolveKeyProp (i : Nat) (p : Option JsValue) : Except JsError (Option String) :=
  match p with
  | none => .ok (defaultKeysTable.get? i)
  | some (.vstr k) =>
      if k.length = 1 then .ok (some k)
      else .error (.typeError ("key in item at index " ++ toString i ++
        " must be a string of length 1"))
  | some _ =>
      .error (.typeError ("key in item at index " ++ toString i ++
        " must be a string of length 1"))

/-- The `parseUnraWheelData` map callback in `#setData` (lines 247-267):
validates one entry and resolves its key. -/
def parseUnraWheelData (i : Nat) (item : RawItem) : Except JsError Item :=
  match item.valueP with
  | none =>
      .error (.typeError ("item at index " ++ toString i ++ " must have a value property"))
  | some v =>
    match item.textP with
    | none =>
        .error (.typeError ("item at index " ++ toString i ++ " must have a text property"))
    | some (.vstr t) => do
        let img ← checkImageProp i item.imageP
        let key ← resolveKeyProp i item.keyP
        pure { value := v, text := t, image := img, key := key }
    | some _ =>
        .error (.typeError ("text in item at index " ++ toString i ++ " must be a string"))

/-- `data.map(parseUnraWheelData)` (line 247): entries are validated left to
right and the whole mapped array is discarded if any callback throws. -/
def parseItems : List RawItem → Nat → Except JsError (List Item)
  | [], _ => .ok []
  | item :: rest, i => do
      let a ← parseUnraWheelData i item
      let tail ← parseItems rest (i + 1)
      pure (a :: tail)

/-- The caller-supplied argument of `#setData` evaluated as a JavaScript
value: an array of entries, or any non-array value. -/
inductive RawValue
  | arr (items : List RawItem)
  | nonArray
  deriving DecidableEq, Repr

/-- The argument of `#setData`/`setSections`: either a string together with
the host `JSON.parse` outcome (`none` when parsing throws), or a direct
value. -/
inductive RawData
  | jsonString (parsed : Option RawValue)
  | direct (v : RawValue)
  deriving DecidableEq, Repr

/-- The interaction state of an `UnraWheel` instance: the private fields of
the class together with the two browser-visible facts that gate event
delivery (the `unrawheel--locked` class on the root svg and the links
tabindex) and the number of generated section elements
(`#elements.sections.length`).  The stored floats `#angleStep` and
`#angleOffset` are multiples of pi and are held exactly as their rational
coefficient of pi; `#currSectionPointerRotation` (degrees) and
`#keyDistanceFromCenter` are exact rationals. -/
structure WheelState where
  data : Option (List Item)
  angleStep : ℚ
  angleOffset : ℚ
  prevHoverIndex : Int
  currSectionPointerRotation : ℚ
  keyDistanceFromCenter : ℚ
  sectionCount : Nat
  isMouseOver : Bool
  isLocked : Bool
  autoLockWheel : Bool
  staticSectionCount : Bool
  svgHasLockedClass : Bool
  renderedSections : Nat
  linksTabbable : Bool
  deriving DecidableEq, Repr

/-- The validating prefix of `#setData` (lines 233-267): everything that can
throw.  Every throw happens before the first instance field is assigned —
the `this.#data = data.map(...)` assignment at line 247 only completes
after all map callbacks have returned. -/
def validateData (s : WheelState) (input : RawData) : Except JsError (List Item) := do
  let v ← match input with
    | .jsonString none => throw (JsError.typeError "failed to parse JSON string")
    | .jsonString (some v) => pure v
    | .direct v => pure v
  match v with
  | .nonArray => throw (JsError.typeError "expected an array")
  | .arr items =>
    if items.length = 0 then
      throw (JsError.typeError "array cannot be empty")
    else if s.staticSectionCount ∧ s.sectionCount - 1 < items.length then
      throw (JsError.typeError "too many options for given section count")
    else
      parseItems items 0

/-- The mutating suffix of `#setData` (lines 247-285): store the normalized
list, update the section count (dynamic mode only), reset the hover index
and pointer rotation iff the count changed, and recompute the derived
constants (`#angleStep = 2pi/count`, `#angleOffset = pi + #angleStep/2`,
`#keyDistanceFromCenter = 0.25 + |0.1 * ((count - 6) / 20)|`). -/
def applyData (s : WheelState) (items : List Item) : WheelState :=
  let prevSegCount := s.sectionCount
  let newCount := if s.staticSectionCount then s.sectionCount else items.length + 1
  { s with
    data := some items
    sectionCount := newCount
    prevHoverIndex := if prevSegCount ≠ newCount then 0 else s.prevHoverIndex
    currSectionPointerRotation :=
      if prevSegCount ≠ newCount then 0 else s.currSectionPointerRotation
    angleStep := 2 / (newCount : ℚ)
    angleOffset := 1 + 1 / (newCount : ℚ)
    keyDistanceFromCenter := 1 / 4 + |(1 / 10 : ℚ) * (((newCount : ℚ) - 6) / 20)| }

/-- `#setData` (lines 233-285).  Returns the state after the call together
with the thrown error, if any; every throw in the source precedes the first
field assignment, so on an error the state is returned untouched. -/
def setDataFn (s : WheelState) (input : RawData) : WheelState × Option JsError :=
  match validateData s input with
  | .error e => (s, some e)
  | .ok items => (applyData s items, none)

/-- `toggleLockWheel` (lines 303-314): no-op when already in the requested
state; otherwise flips the lock, syncs the `unrawheel--locked` class on the
svg (which enables or disables pointer events) and the tabindex of every
section link. -/
def toggleLockFn (s : WheelState) (toggleLock : Bool) : WheelState :=
  if toggleLock = s.isLocked then s
  else { s with isLocked := toggleLock, svgHasLockedClass := toggleLock,
                linksTabbable := !toggleLock }

/-- The value of the property read `this.defaultKeys` in `indexToDefaultKey`
(line 427): the class has no public `defaultKeys` property — the table
lives in the private field `#defaultKeys` — so the read yields
`undefined`. -/
def defaultKeysPublicProp : Option (List String) := none

/-- `indexToDefaultKey` (lines 426-428): evaluates
`this.#defaultKeys[index % this.defaultKeys.length]`; taking `.length` of
the `undefined` public property throws a TypeError before the modulus is
computed. -/
def indexToDefaultKey (index : Nat) : Except JsError String :=
  match defaultKeysPublicProp with
  | none => .error (.typeError "cannot read properties of undefined reading length")
  | some table => .ok ((defaultKeysTable.get? (index % table.length)).getD "undefined")

/-- One iteration of the content loop of `#render` (lines 707-760),
restricted to its only throwing subterm: the key text of a non-blank,
non-back section whose normalized `key` is `undefined` is computed by
`this.indexToDefaultKey(i)` (line 745), which always throws. -/
def renderContentAt (s : WheelState) (items : List Item) (i : Nat) : Except JsError Unit :=
  let isBackSection := i = s.sectionCount - 1
  let isBlankSection := ¬ isBackSection ∧ items.length ≤ i
  if isBlankSection then .ok ()
  else if isBackSection then .ok ()
  else
    match items.get? i with
    | none => .error (.typeError "cannot read properties of undefined reading key")
    | some item =>
      match item.key with
      | some _ => .ok ()
      | none => do
          let _ ← indexToDefaultKey i
          .ok ()

/-- The content loop of `#render` (line 707): visits indices in order
starting at the first argument, for the number of steps in the second,
stopping at the first thrown error. -/
def renderLoop (s : WheelState) (items : List Item) : Nat → Nat → Except JsError Unit
  | _, 0 => .ok ()
  | i, r + 1 => do
      renderContentAt s items i
      renderLoop s items (i + 1) r

/-- The error, if any, thrown by the content loop of `#render` on state
`s` (reading `this.#data.length` on a null `#data` throws at once). -/
def renderError (s : WheelState) : Option JsError :=
  match s.data with
  | none => some (.typeError "cannot read properties of null reading length")
  | some items =>
    match renderLoop s items 0 s.sectionCount with
    | .error e => some e
    | .ok _ => none

/-- `#render` (lines 599-761) restricted to the tracked state: a full
rebuild (sectionCountChanged) regenerates the per-section elements, so
`#elements.sections.length` becomes `#sectionCount` and the fresh links get
their tabindex from the current lock state (line 489); the content loop
then sets texts and can throw through `indexToDefaultKey`.  Mutations
performed before a throw persist, so the rebuilt state is returned
alongside the error. -/
def renderFn (s : WheelState) (sectionCountChanged : Bool) : WheelState × Option JsError :=
  let s1 := if sectionCountChanged then
      { s with renderedSections := s.sectionCount, linksTabbable := !s.isLocked }
    else s
  (s1, renderError s1)

/-- `setSections` (lines 292-297): validate and store the data, render with
a full rebuild iff the effective section count changed (a null `#data`
counts as previous count 0), then auto-unlock if configured.  An error
thrown by `#setData` or `#render` propagates and skips the rest. -/
def setSectionsFn (s : WheelState) (input : RawData) : WheelState × Option JsError :=
  let prevSegCount := if s.data = none then 0 else s.sectionCount
  match setDataFn s input with
  | (s1, some e) => (s1, some e)
  | (s1, none) =>
    match renderFn s1 (prevSegCount != s1.sectionCount) with
    | (s2, some e) => (s2, some e)
    | (s2, none) => (if s2.autoLockWheel then toggleLockFn s2 false else s2, none)

/-- The payload of a dispatched `section-select` CustomEvent (line 415):
`-1` for the back section, the matching entry value otherwise. -/
inductive OutEvent
  | sectionSelect (value : JsValue)
  deriving DecidableEq, Repr

/-- JavaScript array indexing `items[i]` for a possibly negative index:
`undefined` (`none`) when out of range, never a throw. -/
def jsIndex (items : List Item) (i : Int) : Option Item :=
  if i < 0 then none else items.get? i.toNat

/-- Whether `#elements.sections[i]` exists: the array holds one element per
index `0 .. renderedSections - 1`. -/
def sectionElemExists (s : WheelState) (i : Int) : Bool :=
  0 ≤ i && i < (s.renderedSections : Int)

/-- The effectful tail of `#onSectionSelect` (lines 401-418), reached once
the blank/empty-key guard has passed: dereference the section element for
the selected pulse (`elem.classList.contains` throws when
`#elements.sections[sectionIndex]` is `undefined`), apply auto-lock, then
dispatch the event.  The transient pulse class and its timer are purely
visual and not tracked. -/
def onSectionSelectBody (s : WheelState) (sectionIndex : Int) :
    WheelState × Option JsError × Option OutEvent :=
  if ¬ sectionElemExists s sectionIndex then
    (s, some (.typeError "cannot read properties of undefined reading classList"), none)
  else
    let s1 := if s.autoLockWheel then toggleLockFn s true else s
    if sectionIndex = -1 ∨ sectionIndex = (s1.sectionCount : Int) - 1 then
      (s1, none, some (.sectionSelect (.vnum (-1))))
    else
      match s1.data with
      | none => (s1, some (.typeError "cannot read properties of null reading index"), none)
      | some items =>
        match jsIndex items sectionIndex with
        | none =>
            (s1, some (.typeError "cannot read properties of undefined reading value"), none)
        | some item => (s1, none, some (.sectionSelect item.value))

/-- `#onSectionSelect` (lines 395-419).  Returns the state after the call,
the thrown error if any, and the emitted event if any.  Line 397 computes
the back flag from `#elements.sections.length - 1`; line 399 silently
ignores blank filler indices and entries whose key is the empty string
(`this.#data[sectionIndex]` on a null `#data` throws). -/
def onSectionSelect (s : WheelState) (sectionIndex : Int) :
    WheelState × Option JsError × Option OutEvent :=
  let isBackSection := sectionIndex = (s.renderedSections : Int) - 1
  if isBackSection then
    onSectionSelectBody s sectionIndex
  else
    match s.data with
    | none => (s, some (.typeError "cannot read properties of null reading index"), none)
    | some items =>
      match jsIndex items sectionIndex with
      | none => (s, none, none)
      | some item =>
        if item.key = some "" then (s, none, none)
        else onSectionSelectBody s sectionIndex

/-- `#onKeyPress` (lines 321-331): ignore everything while locked;
`Backspace` selects `#elements.sections.length - 1`; any other key selects
the first data entry whose `key` equals the pressed key (`findIndex` on a
null `#data` throws; no match is a no-op). -/
def onKeyPress (s : WheelState) (key : String) :
    WheelState × Option JsError × Option OutEvent :=
  if s.isLocked then (s, none, none)
  else if key = "Backspace" then
    onSectionSelect s ((s.renderedSections : Int) - 1)
  else
    match s.data with
    | none => (s, some (.typeError "cannot read properties of null reading findIndex"), none)
    | some items =>
      -- `findIndex` returns -1 on no match, and the handler only proceeds
      -- when the result is not -1
      match items.findIdx? (fun item => item.key == some key) with
      | some n => onSectionSelect s (n : Int)
      | none => (s, none, none)

/-- `#onSectionHover` (lines 348-368): no-op on a re-hover of the same index
or on an index beyond the data length that is not the back section;
otherwise rotate the pointer by the chosen signed step count and record the
new hover index. -/
def onSectionHover (s : WheelState) (index : Int) :
    WheelState × Option JsError × Option OutEvent :=
  if index = s.prevHoverIndex then (s, none, none)
  else
    match s.data with
    | none => (s, some (.typeError "cannot read properties of null reading length"), none)
    | some items =>
      if index > (items.length : Int) - 1 ∧ index ≠ (s.sectionCount : Int) - 1 then
        (s, none, none)
      else
        let distance := hoverDistance (s.sectionCount : Int) s.prevHoverIndex index
        ({ s with
            currSectionPointerRotation :=
              s.currSectionPointerRotation + 360 / (s.sectionCount : ℚ) * (distance : ℚ),
            prevHoverIndex := index }, none, none)

/-- An external stimulus.  `click` and `hoverSection` carry the index baked
into the originating element's `data-section` attribute; `enterActivate`
is keyboard activation of a focused section link. -/
inductive Event
  | keyDown (key : String)
  | click (i : Nat)
  | enterActivate (i : Nat)
  | hoverSection (i : Nat)
  | setSections (d : RawData)
  | toggleLockWheel (b : Bool)
  deriving DecidableEq, Repr

/-- Browser-side delivery condition for a pointer event on section `i`: the
element must exist, and the stylesheet rule
`.unrawheel--locked { pointer-events: none }` suppresses all pointer events
while the class is on the root svg. -/
def pointerDeliverable (s : WheelState) (i : Nat) : Bool :=
  !s.svgHasLockedClass && i < s.renderedSections

/-- One step of the widget: an external event is delivered — or suppressed
by the browser-side gates — and the corresponding handler runs. -/
def step (s : WheelState) (e : Event) : WheelState × Option JsError × Option OutEvent :=
  match e with
  | .keyDown key => onKeyPress s key
  | .click i =>
      if pointerDeliverable s i then onSectionSelect s (i : Int) else (s, none, none)
  | .enterActivate i =>
      if s.linksTabbable && i < s.renderedSections then onSectionSelect s (i : Int)
      else (s, none, none)
  | .hoverSection i =>
      if pointerDeliverable s i then onSectionHover s (i : Int) else (s, none, none)
  | .setSections d => ((setSectionsFn s d).1, (setSectionsFn s d).2, none)
  | .toggleLockWheel b => (toggleLockFn s b, none, none)

/-- The constructor (lines 197-226) for an element without a `data`
attribute: with `section-count="c"` the count is fixed at `c + 1`; with
`dynamic-section-count` it starts at 0.  The wheel starts locked, but the
constructor never puts the `unrawheel--locked` class on the svg — only
`toggleLockWheel` syncs it. -/
def initState (staticCount : Option Nat) (autoLock : Bool) : WheelState where
  data := none
  angleStep := 0
  angleOffset := 0
  prevHoverIndex := 0
  currSectionPointerRotation := 0
  keyDistanceFromCenter := 0
  sectionCount := match staticCount with | some c => c + 1 | none => 0
  isMouseOver := false
  isLocked := true
  autoLockWheel := autoLock
  staticSectionCount := staticCount.isSome
  svgHasLockedClass := false
  renderedSections := 0
  linksTabbable := false

/-- The first three entries of the example data shipped with the widget:
valid entries with `value`, `text` and `image` and no explicit `key`. -/
def demoRawItems : List RawItem :=
  [{ valueP := some (.vstr "value_1"), textP := some (.vstr "IFVs and APCs"),
     imageP := some (.vstr "./icons/apc.png") },
   { valueP := some (.vstr "value_2"), textP := some (.vstr "Anti-tank Missile"),
     imageP := some (.vstr "./icons/turret.png") },
   { valueP := some (.vstr "value_3"), textP := some (.vstr "Tactical and MRAP"),
     imageP := some (.vstr "./icons/jeep.png") }]

/-- The demo list as a `setSections` argument. -/
def demoRaw : RawData := .direct (.arr demoRawItems)

/-- An element constructed as `<unrawheel-v1 section-count="10">`: no data
attribute, no auto-lock.  The wheel starts Locked. -/
def lockedFreshWheel : WheelState := initState (some 10) false

/-- The state after a successful `setSections(demo)` on the fresh locked
wheel: the wheel is still Locked, yet the `unrawheel--locked` class has
never been applied. -/
def lockedWheelWithData : WheelState := (setSectionsFn lockedFreshWheel demoRaw).1

/-- C3 fails on the code (code bug): on a wheel constructed without a data
attribute `#isLocked` is true but the `unrawheel--locked` class is never
put on the svg (only `toggleLockWheel` syncs it), so after a successful
`setSections` a mouse click is still delivered, `#onSectionClick` has no
lock check, and a `section-select` event is emitted while lockState is
Locked.  Key presses are correctly ignored in the very same state by the
lock guard of `#onKeyPress`. -/
theorem locked_wheel_click_emits_event :
    (setSectionsFn lockedFreshWheel demoRaw).2 = none ∧
    lockedWheelWithData.isLocked = true ∧
    (step lockedWheelWithData (.click 0)).2.2 =
      some (.sectionSelect (.vstr "value_1")) ∧
    (step lockedWheelWithData (.click 0)).2.1 = none ∧
    step lockedWheelWithData (.keyDown "a") = (lockedWheelWithData, none, none) := by
  refine ⟨rfl, rfl, rfl, rfl, rfl⟩

/-- On a validation error `#setData` returns with the state untouched:
every throw in `#setData` textually precedes the first field assignment. -/
lemma setDataFn_error (s : WheelState) (d : RawData) (e : JsError)
    (hv : validateData s d = .error e) : setDataFn s d = (s, some e) := by
  unfold setDataFn
  rw [hv]

/-- On successful validation `#setData` applies the mutating suffix. -/
lemma setDataFn_ok (s : WheelState) (d : RawData) (items : List Item)
    (hv : validateData s d = .ok items) : setDataFn s d = (applyData s items, none) := by
  unfold setDataFn
  rw [hv]

/-- A `#setData` throw propagates out of `setSections` before `#render` and
the auto-unlock are reached. -/
lemma setSectionsFn_error (s : WheelState) (d : RawData) (e : JsError)
    (h : setDataFn s d = (s, some e)) : setSectionsFn s d = (s, some e) := by
  unfold setSectionsFn
  rw [h]

/-- `toggleLockWheel` only touches the lock flag, the svg class and the
links tabindex. -/
lemma toggleLockFn_interaction (s : WheelState) (b : Bool) :
    (toggleLockFn s b).prevHoverIndex = s.prevHoverIndex ∧
    (toggleLockFn s b).currSectionPointerRotation = s.currSectionPointerRotation ∧
    (toggleLockFn s b).sectionCount = s.sectionCount := by
  unfold toggleLockFn
  split <;> exact ⟨rfl, rfl, rfl⟩

/-- `#render` only touches the generated elements and their tabindex. -/
lemma renderFn_interaction (s : WheelState) (b : Bool) :
    ((renderFn s b).1).prevHoverIndex = s.prevHoverIndex ∧
    ((renderFn s b).1).currSectionPointerRotation = s.currSectionPointerRotation ∧
    ((renderFn s b).1).sectionCount = s.sectionCount ∧
    ((renderFn s b).1).autoLockWheel = s.autoLockWheel := by
  cases b <;> exact ⟨rfl, rfl, rfl, rfl⟩

/-- `#render` returns the rebuilt state together with the content-loop
error computed on that state. -/
lemma renderFn_eq (s : WheelState) (b : Bool) :
    renderFn s b = ((renderFn s b).1, renderError ((renderFn s b).1)) := by
  cases b <;> rfl

/-- C5: whenever `#setData` raises (unparseable JSON string, non-array,
empty array, over-capacity list, or any entry failing the value, text,
image or key validation), the raise is synchronous and the update aborts
entirely: `#setData` returns with the state exactly as it was — section
data, sectionCount, angleStep, angleOffset, label radius, hover index,
pointer rotation and lock state included — and `setSections` propagates
the same error without rendering. -/
theorem setSections_error_atomic (s : WheelState) (d : RawData) (e : JsError)
    (h : (setDataFn s d).2 = some e) :
    setDataFn s d = (s, some e) ∧ setSectionsFn s d = (s, some e) := by
  have h1 : setDataFn s d = (s, some e) := by
    cases hv : validateData s d with
    | error e2 =>
        have h2 := setDataFn_error s d e2 hv
        rw [h2] at h
        obtain rfl : e2 = e := by simpa using h
        exact h2
    | ok items =>
        rw [setDataFn_ok s d items hv] at h
        simp at h
  exact ⟨h1, setSectionsFn_error s d e h1⟩

/-- Witness for C5: feeding a non-array value to `setSections` of a fresh
fixed-capacity wheel throws `expected an array` and leaves the state
untouched. -/
theorem setSections_error_atomic_witness :
    setDataFn lockedFreshWheel (.direct .nonArray) =
      (lockedFreshWheel, some (.typeError "expected an array")) ∧
    setSectionsFn lockedFreshWheel (.direct .nonArray) =
      (lockedFreshWheel, some (.typeError "expected an array")) :=
  setSections_error_atomic lockedFreshWheel (.direct .nonArray)
    (.typeError "expected an array") rfl

/-- C6: across a successful `setSections` on a wheel that already holds
data, the hover index and the pointer rotation are reset to 0 exactly when
the effective section count changed; in particular a second call whose
normalized list has the same length as the current one — e.g. a list
identical by value — preserves both, whatever their values.  `hcount` is
the dynamic-mode invariant linking the stored count to the stored list. -/
theorem setSections_reset_iff (s s1 : WheelState) (d : RawData) (items0 : List Item)
    (hdata : s.data = some items0)
    (hcount : s.staticSectionCount = false → s.sectionCount = items0.length + 1)
    (h : setSectionsFn s d = (s1, none)) :
    (s1.prevHoverIndex =
      if s1.sectionCount = s.sectionCount then s.prevHoverIndex else 0) ∧
    (s1.currSectionPointerRotation =
      if s1.sectionCount = s.sectionCount then s.currSectionPointerRotation else 0) ∧
    (∀ items, validateData s d = .ok items → items.length = items0.length →
      s1.prevHoverIndex = s.prevHoverIndex ∧
      s1.currSectionPointerRotation = s.currSectionPointerRotation) := by
  cases hv : validateData s d with
  | error e =>
      rw [setSectionsFn_error s d e (setDataFn_error s d e hv)] at h
      simp at h
  | ok items =>
      unfold setSectionsFn at h
      rw [setDataFn_ok s d items hv] at h
      dsimp only at h
      set sa := applyData s items with hsa
      set bb := ((if s.data = none then 0 else s.sectionCount) != sa.sectionCount) with hbb
      rw [renderFn_eq sa bb] at h
      cases hre : renderError ((renderFn sa bb).1) with
      | some e =>
          rw [hre] at h
          dsimp only at h
          simp at h
      | none =>
          rw [hre] at h
          dsimp only at h
          have hs1 : (if ((renderFn sa bb).1).autoLockWheel = true then
              toggleLockFn ((renderFn sa bb).1) false else (renderFn sa bb).1) = s1 :=
            congrArg Prod.fst h
          have hr := renderFn_interaction sa bb
          have hfields : s1.prevHoverIndex = sa.prevHoverIndex ∧
              s1.currSectionPointerRotation = sa.currSectionPointerRotation ∧
              s1.sectionCount = sa.sectionCount := by
            rw [← hs1]
            by_cases hal : ((renderFn sa bb).1).autoLockWheel = true
            · rw [if_pos hal]
              have ht := toggleLockFn_interaction ((renderFn sa bb).1) false
              exact ⟨ht.1.trans hr.1, ht.2.1.trans hr.2.1, ht.2.2.trans hr.2.2.1⟩
            · rw [if_neg hal]
              exact ⟨hr.1, hr.2.1, hr.2.2.1⟩
          have hcnt : sa.sectionCount =
              if s.staticSectionCount then s.sectionCount else items.length + 1 := rfl
          have hhov : sa.prevHoverIndex =
              if s.sectionCount ≠ sa.sectionCount then 0 else s.prevHoverIndex := rfl
          have hrot : sa.currSectionPointerRotation =
              if s.sectionCount ≠ sa.sectionCount then 0 else
                s.currSectionPointerRotation := rfl
          refine ⟨?_, ?_, ?_⟩
          · rw [hfields.1, hfields.2.2, hhov]
            rcases eq_or_ne sa.sectionCount s.sectionCount with hc | hc
            · simp [hc]
            · simp [hc, hc.symm]
          · rw [hfields.2.1, hfields.2.2, hrot]
            rcases eq_or_ne sa.sectionCount s.sectionCount with hc | hc
            · simp [hc]
            · simp [hc, hc.symm]
          · intro items2 hv2 hlen
            obtain rfl : items = items2 := by simpa using hv2
            have hceq : sa.sectionCount = s.sectionCount := by
              rw [hcnt]
              by_cases hst : s.staticSectionCount
              · simp [hst]
              · have h6 := hcount (by simpa using hst)
                simp [hst, h6, hlen]
            refine ⟨?_, ?_⟩
            · rw [hfields.1, hhov, hceq]; simp
            · rw [hfields.2.1, hrot, hceq]; simp

/-- The normalized form of the demo list: positional default keys a, s, d. -/
def demoItems : List Item :=
  [{ value := .vstr "value_1", text := "IFVs and APCs",
     image := some "./icons/apc.png", key := some "a" },
   { value := .vstr "value_2", text := "Anti-tank Missile",
     image := some "./icons/turret.png", key := some "s" },
   { value := .vstr "value_3", text := "Tactical and MRAP",
     image := some "./icons/jeep.png", key := some "d" }]

/-- A dynamic-section-count wheel (no auto-lock) after a first successful
`setSections(demo)`: section count 4, elements rebuilt. -/
def dynWheelWithData : WheelState := (setSectionsFn (initState none false) demoRaw).1

/-- The dynamic wheel after additionally hovering section 2: hover index 2
and an accumulated pointer rotation of 180 degrees. -/
def dynWheelHovered : WheelState := (onSectionHover dynWheelWithData 2).1

/-- Witness for C6: on the dynamic wheel holding the demo data with hover
index 2 and a nonzero accumulated rotation, a second `setSections` with the
identical list preserves both interaction values. -/
theorem setSections_reset_iff_witness :
    dynWheelHovered.prevHoverIndex = 2 ∧
    ((setSectionsFn dynWheelHovered demoRaw).1).prevHoverIndex = 2 ∧
    ((setSectionsFn dynWheelHovered demoRaw).1).currSectionPointerRotation =
      dynWheelHovered.currSectionPointerRotation := by
  have h := setSections_reset_iff dynWheelHovered
      ((setSectionsFn dynWheelHovered demoRaw).1) demoRaw demoItems rfl
      (fun _ => rfl) (Prod.ext_iff.mpr ⟨rfl, rfl⟩)
  have h3 := h.2.2 demoItems rfl rfl
  exact ⟨rfl, h3.1.trans rfl, h3.2⟩

/-- `#angleStep = 2 pi / #sectionCount` (line 282), as the real number the
stored float approximates. -/
noncomputable def angleStepReal (sectionCount : Nat) : ℝ := 2 * Real.pi / sectionCount

/-- `#angleOffset = pi + #angleStep / 2` (line 283). -/
noncomputable def angleOffsetReal (sectionCount : Nat) : ℝ :=
  Real.pi + angleStepReal sectionCount / 2

/-- `startAngle = i * this.#angleStep + this.#angleOffset` (line 631). -/
noncomputable def startAngle (sectionCount i : Nat) : ℝ :=
  i * angleStepReal sectionCount + angleOffsetReal sectionCount

/-- `endAngle = (i + 1) * this.#angleStep + this.#angleOffset` (line 632). -/
noncomputable def endAngle (sectionCount i : Nat) : ℝ :=
  (i + 1) * angleStepReal sectionCount + angleOffsetReal sectionCount

/-- C7: for every sectionCount n ≥ 1 the per-index arcs tile the full
circle with no gaps or overlaps: each arc spans exactly `angleStep`, the n
spans sum to 2 pi exactly, and each arc's end angle is the next arc's start
angle. -/
theorem sectionArcs_tile (n : Nat) (hn : 1 ≤ n) :
    (∀ i, endAngle n i - startAngle n i = angleStepReal n) ∧
    (∑ i in Finset.range n, (endAngle n i - startAngle n i)) = 2 * Real.pi ∧
    (∀ i, i + 1 < n → endAngle n i = startAngle n (i + 1)) := by
  have hn0 : (n : ℝ) ≠ 0 := Nat.cast_ne_zero.mpr (by omega)
  have hspan : ∀ i, endAngle n i - startAngle n i = angleStepReal n := by
    intro i
    unfold endAngle startAngle
    ring
  refine ⟨hspan, ?_, ?_⟩
  · rw [Finset.sum_congr rfl fun i _ => hspan i, Finset.sum_const, Finset.card_range,
      nsmul_eq_mul]
    unfold angleStepReal
    field_simp
  · intro i hi
    unfold endAngle startAngle
    push_cast
    ring

/-- Witness for C7 at n = 4: the four arc spans sum to 2 pi. -/
theorem sectionArcs_tile_witness :
    (∑ i in Finset.range 4, (endAngle 4 i - startAngle 4 i)) = 2 * Real.pi :=
  (sectionArcs_tile 4 (by norm_num)).2.1

/-- C8: while unlocked with a valid section list of length L, clicking any
blank filler index i (L ≤ i < sectionCount - 1) yields no outcome: the
click is delivered, but `#onSectionSelect` returns at the blank guard
before any state change or event dispatch. -/
theorem blank_section_click_noop (s : WheelState) (items : List Item) (i : Nat)
    (hdata : s.data = some items) (hlock : s.isLocked = false)
    (hcls : s.svgHasLockedClass = false)
    (hre : s.renderedSections = s.sectionCount)
    (hlo : items.length ≤ i) (hhi : i + 1 < s.sectionCount) :
    step s (.click i) = (s, none, none) := by
  unfold step
  dsimp only
  have hd : pointerDeliverable s i = true := by
    unfold pointerDeliverable
    rw [hcls, hre]
    simp
    omega
  rw [if_pos hd]
  unfold onSectionSelect
  dsimp only
  have hnb : ¬ ((i : Int) = (s.renderedSections : Int) - 1) := by
    rw [hre]
    omega
  rw [if_neg hnb, hdata]
  dsimp only
  have hj : jsIndex items (i : Int) = none := by
    unfold jsIndex
    rw [if_neg (by omega)]
    exact List.get?_eq_none.mpr (by omega)
  rw [hj]

/-- Witness for C8 at the spec example: fixed capacity 11
(`section-count="10"`), three data items (indices 3..9 blank, index 10 the
back section), unlocked: clicking blank index 5 changes nothing and emits
nothing. -/
theorem blank_section_click_noop_witness :
    step (toggleLockFn lockedWheelWithData false) (.click 5) =
      (toggleLockFn lockedWheelWithData false, none, none) :=
  blank_section_click_noop (toggleLockFn lockedWheelWithData false) demoItems 5
    rfl rfl rfl rfl (by decide) (by decide)

/-- C10: if the wheel is unlocked before any section data has ever been
set, every key-down event throws a TypeError instead of being silently
ignored: Backspace resolves to index -1 = `#elements.sections.length - 1`,
passes the back-section test and dereferences the undefined element
`#elements.sections[-1]` for the selection pulse; any other key calls
`findIndex` on the null `#data`. -/
theorem keydown_without_data_throws (s : WheelState) (key : String)
    (hdata : s.data = none) (hlock : s.isLocked = false)
    (hre : s.renderedSections = 0) :
    onKeyPress s key =
      (s, some (.typeError (if key = "Backspace"
          then "cannot read properties of undefined reading classList"
          else "cannot read properties of null reading findIndex")), none) := by
  by_cases hk : key = "Backspace"
  · subst hk
    unfold onKeyPress onSectionSelect onSectionSelectBody sectionElemExists
    simp [hlock, hre]
  · unfold onKeyPress
    simp [hlock, hk, hdata]

/-- Witness for C10: a dynamic wheel unlocked via `toggleLockWheel(false)`
with no data ever set throws on Backspace and on the letter a. -/
theorem keydown_without_data_throws_witness :
    onKeyPress (toggleLockFn (initState none false) false) "Backspace" =
      (toggleLockFn (initState none false) false,
        some (.typeError "cannot read properties of undefined reading classList"),
        none) ∧
    onKeyPress (toggleLockFn (initState none false) false) "a" =
      (toggleLockFn (initState none false) false,
        some (.typeError "cannot read properties of null reading findIndex"), none) := by
  constructor
  · have h := keydown_without_data_throws (toggleLockFn (initState none false) false)
      "Backspace" rfl rfl rfl
    rw [if_pos rfl] at h
    exact h
  · have h := keydown_without_data_throws (toggleLockFn (initState none false) false)
      "a" rfl rfl rfl
    rw [if_neg (by decide)] at h
    exact h

/-- An entry whose `key` property is the empty string never parses: either
an earlier check on value, text or image throws first, or the
single-character check at line 264 rejects the empty string
(`''.length !== 1`). -/
lemma parseUnraWheelData_emptyKey (i : Nat) (item : RawItem)
    (hkey : item.keyP = some (.vstr "")) :
    (parseUnraWheelData i item).isOk = false := by
  rcases item with ⟨vP, tP, iP, kP⟩
  simp only at hkey
  subst hkey
  rcases vP with _ | v
  all_goals try rfl
  rcases tP with _ | tv
  all_goals try rfl
  rcases tv with t | n2 | b2 | _
  all_goals try rfl
  rcases iP with _ | iv
  all_goals try rfl
  rcases iv with s2 | n3 | b3 | _
  all_goals rfl

/-- A list containing an empty-key entry anywhere never normalizes: either
an earlier entry throws first, or the empty-key entry itself throws. -/
lemma parseItems_emptyKey (l : List RawItem) :
    ∀ (j i : Nat) (item : RawItem), l.get? j = some item →
      item.keyP = some (.vstr "") → (parseItems l i).isOk = false := by
  induction l with
  | nil =>
      intro j i item h
      simp at h
  | cons x rest ih =>
      intro j i item hget hkey
      cases hpx : parseUnraWheelData i x with
      | error e =>
          simp [parseItems, hpx, Except.isOk, Except.toBool, Bind.bind, Except.bind]
      | ok a =>
          cases j with
          | zero =>
              obtain rfl : x = item := by simpa using hget
              have hbad := parseUnraWheelData_emptyKey i x hkey
              rw [hpx] at hbad
              simp [Except.isOk, Except.toBool] at hbad
          | succ j2 =>
              have htail := ih j2 (i + 1) item (by simpa using hget) hkey
              cases hpt : parseItems rest (i + 1) with
              | error e2 =>
                  simp [parseItems, hpx, hpt, Except.isOk, Except.toBool,
                    Bind.bind, Except.bind]
              | ok tl =>
                  rw [hpt] at htail
                  simp [Except.isOk, Except.toBool] at htail

/-- A single otherwise-valid entry with `key: ''`. -/
def emptyKeyRawItem : RawItem :=
  { valueP := some (.vnum 1), textP := some (.vstr "first"), keyP := some (.vstr "") }

/-- Counterexample to C4: normalization does NOT succeed on a list
containing an entry with `key: ''` — `#setData` throws the length-1
TypeError instead of accepting the empty string as no shortcut. -/
theorem emptyKey_counterexample :
    parseItems [emptyKeyRawItem] 0 =
      .error (.typeError "key in item at index 0 must be a string of length 1") ∧
    (setSectionsFn (initState none false) (.direct (.arr [emptyKeyRawItem]))).2 ≠
      none :=
  ⟨rfl, by decide⟩

/-- C4 (amended): a raw section list containing an entry whose `key` is the
empty string (other fields arbitrary) is REJECTED by normalization — the
single-character check throws a TypeError and `setSections` aborts with the
state untouched — so no normalized section ever stores an empty key.
Independently, the guard at line 399 makes any index whose stored key were
the empty string yield no outcome when selected: no event, no state
change. -/
theorem emptyKey_rejected (l : List RawItem) (j : Nat) (item : RawItem)
    (hget : l.get? j = some item) (hkey : item.keyP = some (.vstr "")) :
    (parseItems l 0).isOk = false ∧
    (∀ s : WheelState, ∃ e, setSectionsFn s (.direct (.arr l)) = (s, some e)) ∧
    (∀ (s : WheelState) (idx : Int) (items : List Item) (it : Item),
      s.data = some items → jsIndex items idx = some it → it.key = some "" →
      ¬ idx = (s.renderedSections : Int) - 1 →
      onSectionSelect s idx = (s, none, none)) := by
  have h1 := parseItems_emptyKey l j 0 item hget hkey
  refine ⟨h1, ?_, ?_⟩
  · intro s
    cases hv : validateData s (.direct (.arr l)) with
    | error e => exact ⟨e, setSectionsFn_error s _ e (setDataFn_error s _ e hv)⟩
    | ok items =>
        exfalso
        unfold validateData at hv
        simp only [Bind.bind, Except.bind, pure, Except.pure] at hv
        split at hv
        · exact absurd hv (by simp)
        · split at hv
          · exact absurd hv (by simp)
          · rw [hv] at h1
            simp [Except.isOk, Except.toBool] at h1
  · intro s idx items it hdata hj hkey2 hnb
    unfold onSectionSelect
    dsimp only
    rw [if_neg hnb, hdata]
    dsimp only
    rw [hj]
    dsimp only
    rw [if_pos hkey2]

/-- A state holding, hypothetically, a stored section with an empty key —
unreachable through normalization, as the counterexample shows, yet the
select guard still ignores it. -/
def emptyKeyState : WheelState :=
  { initState (some 10) false with
      data := some [{ value := .vnum 1, text := "first", image := none,
                      key := some "" }],
      renderedSections := 11 }

/-- Witness for the amended C4 at a concrete list and a concrete state. -/
theorem emptyKey_rejected_witness :
    (parseItems [emptyKeyRawItem] 0).isOk = false ∧
    onSectionSelect emptyKeyState 0 = (emptyKeyState, none, none) := by
  have h := emptyKey_rejected [emptyKeyRawItem] 0 emptyKeyRawItem rfl rfl
  exact ⟨h.1, h.2.2 emptyKeyState 0
    [{ value := .vnum 1, text := "first", image := none, key := some "" }]
    { value := .vnum 1, text := "first", image := none, key := some "" }
    rfl rfl rfl (by decide)⟩

/-- `#render` does not change the stored data. -/
lemma renderFn_data (s : WheelState) (b : Bool) : ((renderFn s b).1).data = s.data := by
  cases b <;> rfl

/-- Past the 36-entry table, an omitted key resolves to `undefined`. -/
lemma resolveKeyProp_overflow (i : Nat) (h : 36 ≤ i) :
    resolveKeyProp i none = .ok none := by
  unfold resolveKeyProp
  have htab : defaultKeysTable.get? i = none :=
    List.get?_eq_none.mpr (by rw [show defaultKeysTable.length = 36 from rfl]; exact h)
  rw [htab]

/-- An entry without a `key` property at an index past the table normalizes
to a section whose key is `undefined`. -/
lemma parseUnraWheelData_overflow (i : Nat) (item : RawItem) (out : Item)
    (h36 : 36 ≤ i) (hkey : item.keyP = none)
    (hok : parseUnraWheelData i item = .ok out) : out.key = none := by
  rcases item with ⟨vP, tP, iP, kP⟩
  simp only at hkey
  subst hkey
  rcases vP with _ | v
  · exact absurd hok (by simp [parseUnraWheelData])
  rcases tP with _ | tv
  · exact absurd hok (by simp [parseUnraWheelData])
  rcases tv with t | n2 | b2 | _
  case vnum => exact absurd hok (by simp [parseUnraWheelData])
  case vbool => exact absurd hok (by simp [parseUnraWheelData])
  case vnull => exact absurd hok (by simp [parseUnraWheelData])
  case vstr =>
    unfold parseUnraWheelData at hok
    dsimp only at hok
    cases himg : checkImageProp i iP with
    | error e =>
        rw [himg] at hok
        simp [Bind.bind, Except.bind] at hok
    | ok img =>
        rw [himg, resolveKeyProp_overflow i h36] at hok
        obtain rfl : ({ value := v, text := t, image := img, key := none } : Item)
            = out := by
          simpa [Bind.bind, Except.bind, pure, Except.pure] using hok
        rfl

/-- If some visited index of the content loop throws, the loop throws. -/
lemma renderLoop_isOk_false (s : WheelState) (items : List Item) :
    ∀ (r i j : Nat), i ≤ j → j < i + r →
      (renderContentAt s items j).isOk = false →
      (renderLoop s items i r).isOk = false := by
  intro r
  induction r with
  | zero =>
      intro i j h1 h2 h3
      exact absurd h2 (by omega)
  | succ r ih =>
      intro i j h1 h2 h3
      cases hci : renderContentAt s items i with
      | error e =>
          simp [renderLoop, hci, Except.isOk, Except.toBool, Bind.bind, Except.bind]
      | ok u =>
          rcases Nat.eq_or_lt_of_le h1 with rfl | hlt
          · rw [hci] at h3
            simp [Except.isOk, Except.toBool] at h3
          · have htail := ih (i + 1) j (by omega) (by omega) h3
            cases hrl : renderLoop s items (i + 1) r with
            | error e2 =>
                simp [renderLoop, hci, hrl, Except.isOk, Except.toBool,
                  Bind.bind, Except.bind]
            | ok u2 =>
                rw [hrl] at htail
                simp [Except.isOk, Except.toBool] at htail

/-- The content loop throws at a non-blank, non-back index whose stored key
is `undefined`: line 745 falls back to `indexToDefaultKey`. -/
lemma renderContentAt_keyNone_fails (s : WheelState) (items : List Item) (i : Nat)
    (item : Item) (hnb : ¬ i = s.sectionCount - 1) (hlt : i < items.length)
    (hget : items.get? i = some item) (hkey : item.key = none) :
    (renderContentAt s items i).isOk = false := by
  unfold renderContentAt
  dsimp only
  rw [if_neg (by omega), if_neg hnb, hget]
  dsimp only
  rw [hkey]
  rfl

/-- C9: the public method `indexToDefaultKey` throws a TypeError for every
input index, because it reads the table length through the nonexistent
property `this.defaultKeys` before taking the modulus; consequently an
entry without a `key` property at an index ≥ 36 normalizes to an
`undefined` key, and rendering a normalized list longer than 36 whose entry
at index 36 carries such a defaulted `undefined` key throws instead of
wrapping around the table. -/
theorem indexToDefaultKey_always_throws :
    (∀ index : Nat, indexToDefaultKey index =
      .error (.typeError "cannot read properties of undefined reading length")) ∧
    (∀ (i : Nat) (item : RawItem) (out : Item), 36 ≤ i → item.keyP = none →
      parseUnraWheelData i item = .ok out → out.key = none) ∧
    (∀ (s : WheelState) (b : Bool) (items : List Item) (item : Item),
      s.data = some items → s.sectionCount = items.length + 1 →
      36 < items.length → items.get? 36 = some item → item.key = none →
      ((renderFn s b).2).isSome = true) := by
  refine ⟨fun _ => rfl, fun i item out => parseUnraWheelData_overflow i item out, ?_⟩
  intro s b items item hdata hcnt h36 hget hkey
  rw [renderFn_eq s b]
  dsimp only
  have hd2 : ((renderFn s b).1).data = some items := (renderFn_data s b).trans hdata
  have hc2 : ((renderFn s b).1).sectionCount = items.length + 1 :=
    ((renderFn_interaction s b).2.2.1).trans hcnt
  unfold renderError
  rw [hd2]
  dsimp only
  have hfail := renderLoop_isOk_false ((renderFn s b).1) items
      ((renderFn s b).1).sectionCount 0 36 (by omega) (by omega)
      (renderContentAt_keyNone_fails ((renderFn s b).1) items 36 item
        (by omega) (by omega) hget hkey)
  cases hrl : renderLoop ((renderFn s b).1) items 0 ((renderFn s b).1).sectionCount with
  | error e => rfl
  | ok u =>
      rw [hrl] at hfail
      simp [Except.isOk, Except.toBool] at hfail

/-- Thirty-seven valid entries, none with an explicit `key`. -/
def bigRawItems : List RawItem :=
  List.replicate 37 { valueP := some (.vnum 7), textP := some (.vstr "x") }

/-- The normalized form of the 37-entry list (entry 36 gets key
`undefined`). -/
def bigItems : List Item :=
  match parseItems bigRawItems 0 with
  | .ok items => items
  | .error _ => []

/-- A dynamic wheel after `setSections` with the 37-entry list (the call
itself already throws from `#render`, leaving the stored data behind). -/
def bigWheel : WheelState :=
  (setSectionsFn (initState none false) (.direct (.arr bigRawItems))).1

/-- Witness for C9: `indexToDefaultKey 5` throws, and re-rendering the
38-section wheel built from 37 keyless entries throws. -/
theorem indexToDefaultKey_always_throws_witness :
    indexToDefaultKey 5 =
      .error (.typeError "cannot read properties of undefined reading length") ∧
    ((renderFn bigWheel true).2).isSome = true := by
  have h := indexToDefaultKey_always_throws
  refine ⟨h.1 5, ?_⟩
  exact h.2.2 bigWheel true bigItems
    { value := .vnum 7, text := "x", image := none, key := none }
    rfl rfl (by decide) (by decide) rfl

end UnraWheel
